import Mathlib

/-!
# ChirpChirp link-layer: a shallow embedding with proofs

This file embeds, in Lean 4, the parts of the ChirpChirp repository that the
frozen claims speak about:

* the payload codec: `_pack_data` / `compress_layer` / `create_frame` from
  `src/source/transmitter/encoder.py` and `_unpack_and_reconstruct` /
  `bam_decode` / `decode` from `src/source/receiver/decoder.py`;
* the receiver's classification loop (`receive_loop` in
  `src/source/receiver/receiver.py`) as a byte-at-a-time state machine over a
  timed byte stream;
* the transmitter's data-retry loop and its input-buffer resets
  (`send_data` in `src/source/transmitter/sender.py`);
* the stale frame builder `make_frames` from
  `src/source/transmitter/packetizer.py`.

Modelling conventions:

* Python `bytes` are `List Nat` of byte values; machine integers are `Nat`/`Int`
  with explicit `% 256`, `% 65536`, two's complement handled explicitly.
* Python floats on the sensor fields are modelled as exact rationals `ℚ`;
  `int(x)` is truncation toward zero (`pyInt`).
* The two IEEE-754 `f32` fields (`gps.lat`, `gps.lon`) are modelled by their
  32-bit patterns (`Nat < 2^32`): `struct.pack "<f"` stores exactly those four
  bytes and `struct.unpack` recovers them, so a finite `f32` round-trips
  bit-exactly; division by the scale `1.0` is the identity on them.
* zlib is an external library; DEFLATE compression/decompression are abstract
  functions, universally quantified where a claim needs them, with the
  inversion property `decompress (compress b) = some b` as a hypothesis.
* A serial read with a timeout is modelled on streams of `Option Nat`:
  `some b` is a byte that arrives in time, `none` is an expired timeout
  (`serial.read` returning short); the end of the list is a permanent timeout.
-/

/-! ## Codec: transmitter side (`src/source/transmitter/encoder.py`) -/

/-- Python `int(q)` on a real value: truncation toward zero. -/
def pyInt (q : ℚ) : ℤ := if 0 ≤ q then ⌊q⌋ else ⌈q⌉

/-- Little-endian `u32` byte serialisation (`struct.pack "<I"`). -/
def u32le (n : ℕ) : List ℕ :=
  [n % 256, n / 256 % 256, n / 65536 % 256, n / 16777216 % 256]

/-- Little-endian `i16` byte serialisation (`struct.pack "<h"`),
two's complement. -/
def i16le (n : ℤ) : List ℕ :=
  [(n % 65536).toNat % 256, (n % 65536).toNat / 256 % 256]

/-- One sensor sample (§3 of the spec, the dict built by `sensor_reader`):
timestamp, acceleration triple (g), angular rate triple (°/s), attitude
triple (°), GPS latitude/longitude (as `f32` bit patterns) and altitude (m). -/
structure Sample where
  ts : ℕ
  ax : ℚ
  ay : ℚ
  az : ℚ
  gx : ℚ
  gy : ℚ
  gz : ℚ
  roll : ℚ
  pitch : ℚ
  yaw : ℚ
  lat : ℕ
  lon : ℕ
  alt : ℚ
deriving DecidableEq

/-- The 32-byte packed blob of `_pack_data`, format `"<Ihhhhhhhhhffh"` with
scales `(1, 1000, 1000, 1000, 10, 10, 10, 10, 10, 10, 1.0, 1.0, 10)`. -/
def packSample (s : Sample) : List ℕ :=
  u32le s.ts
    ++ i16le (pyInt (s.ax * 1000)) ++ i16le (pyInt (s.ay * 1000))
    ++ i16le (pyInt (s.az * 1000))
    ++ i16le (pyInt (s.gx * 10)) ++ i16le (pyInt (s.gy * 10))
    ++ i16le (pyInt (s.gz * 10))
    ++ i16le (pyInt (s.roll * 10)) ++ i16le (pyInt (s.pitch * 10))
    ++ i16le (pyInt (s.yaw * 10))
    ++ u32le s.lat ++ u32le s.lon
    ++ i16le (pyInt (s.alt * 10))

/-- A scaled integer fits `struct.pack "<h"` without raising. -/
abbrev i16ok (q : ℚ) : Prop := -32768 ≤ pyInt q ∧ pyInt q ≤ 32767

/-- `struct.pack "<Ihhhhhhhhhffh"` succeeds: the timestamp fits `u32`, the
`f32` bit patterns are 32-bit words, every scaled integer fits `i16`. -/
abbrev packOk (s : Sample) : Prop :=
  s.ts < 4294967296 ∧ s.lat < 4294967296 ∧ s.lon < 4294967296 ∧
  i16ok (s.ax * 1000) ∧ i16ok (s.ay * 1000) ∧ i16ok (s.az * 1000) ∧
  i16ok (s.gx * 10) ∧ i16ok (s.gy * 10) ∧ i16ok (s.gz * 10) ∧
  i16ok (s.roll * 10) ∧ i16ok (s.pitch * 10) ∧ i16ok (s.yaw * 10) ∧
  i16ok (s.alt * 10)

/-- `_pack_data` (encoder.py:38-58): pack the sample, returning `b""` (here
`[]`) when `struct.pack` raises because a value is out of range. -/
def pack_data (s : Sample) : List ℕ :=
  if packOk s then packSample s else []

/-- `compress_layer` (encoder.py:60-79): mode `"raw"` passes the packed data
through; mode `"bam"` is an unimplemented stub that also passes the data
through ("임시로 원본 반환" — temporarily return the original); any other mode
string is rejected with `None`. -/
def compress_layer (packed : List ℕ) (mode : String) : Option (List ℕ) :=
  if mode = "raw" then some packed
  else if mode = "bam" then some packed
  else none

/-- `MAX_FRAME_CONTENT_SIZE` (encoder.py:21). -/
def MAX_FRAME_CONTENT_SIZE : ℕ := 57

/-- `create_frame` (encoder.py:81-128).  `urandom` stands for `os.urandom`,
an arbitrary byte source; `payload_size = 0` selects the sensor-data path,
`payload_size > 0` the dummy-payload path.  The frame content
`[MESSAGE_SEQ | PAYLOAD]` is truncated to `MAX_FRAME_CONTENT_SIZE` bytes. -/
def create_frame (urandom : ℕ → List ℕ) (sample : Sample) (message_seq : ℕ)
    (compression_mode : String) (payload_size : ℕ) : Option (List ℕ) :=
  if payload_size = 0 then
    if pack_data sample = [] then none
    else
      match compress_layer (pack_data sample) compression_mode with
      | none => none
      | some payload =>
          some (((message_seq % 256) :: payload).take MAX_FRAME_CONTENT_SIZE)
  else
    some (((message_seq % 256) :: urandom payload_size).take MAX_FRAME_CONTENT_SIZE)

/-! ## Codec: receiver side (`src/source/receiver/decoder.py`) -/

/-- The record `_unpack_and_reconstruct` rebuilds: every struct field divided
by its scale.  `lat`/`lon` stay `f32` bit patterns (the division by the scale
`1.0` is the identity on the stored value). -/
structure RSample where
  ts : ℚ
  ax : ℚ
  ay : ℚ
  az : ℚ
  gx : ℚ
  gy : ℚ
  gz : ℚ
  roll : ℚ
  pitch : ℚ
  yaw : ℚ
  lat : ℕ
  lon : ℕ
  alt : ℚ
deriving DecidableEq

/-- Little-endian `u32` read at offset `i` (`struct.unpack "<I"`). -/
def u32At (b : List ℕ) (i : ℕ) : ℕ :=
  b.getD i 0 + 256 * b.getD (i + 1) 0 + 65536 * b.getD (i + 2) 0
    + 16777216 * b.getD (i + 3) 0

/-- Little-endian `u16` read at offset `i`. -/
def u16At (b : List ℕ) (i : ℕ) : ℕ := b.getD i 0 + 256 * b.getD (i + 1) 0

/-- Little-endian `i16` read at offset `i` (`struct.unpack "<h"`),
two's complement. -/
def i16At (b : List ℕ) (i : ℕ) : ℤ :=
  if u16At b i < 32768 then (u16At b i : ℤ) else (u16At b i : ℤ) - 65536

/-- `_unpack_and_reconstruct` (decoder.py:22-39): `None` unless the buffer is
exactly `struct.calcsize "<Ihhhhhhhhhffh" = 32` bytes, otherwise the unpacked
values divided by `_SCALES = (1, 1000, 1000, 1000, 10, 10, 10, 10, 10, 10,
1.0, 1.0, 10.0)`. -/
def unpack_and_reconstruct (buf : List ℕ) : Option RSample :=
  if buf.length = 32 then
    some
      { ts := (u32At buf 0 : ℚ) / 1
        ax := (i16At buf 4 : ℚ) / 1000
        ay := (i16At buf 6 : ℚ) / 1000
        az := (i16At buf 8 : ℚ) / 1000
        gx := (i16At buf 10 : ℚ) / 10
        gy := (i16At buf 12 : ℚ) / 10
        gz := (i16At buf 14 : ℚ) / 10
        roll := (i16At buf 16 : ℚ) / 10
        pitch := (i16At buf 18 : ℚ) / 10
        yaw := (i16At buf 20 : ℚ) / 10
        lat := u32At buf 22
        lon := u32At buf 26
        alt := (i16At buf 30 : ℚ) / 10 }
  else none

/-- `int.from_bytes(b, "little")`. -/
def fromLE : List ℕ → ℕ
  | [] => 0
  | b :: r => b + 256 * fromLE r

/-- The result of `decoder.decode`: a reconstructed sample record, the
`bam_decode` stub record `{type: "bam_decoded", code}` or a dummy-mode record
`{type: "dummy_decoded", size}`. -/
inductive DecodeResult where
  | sample (r : RSample)
  | bam (code : ℕ)
  | dummy (size : ℕ)
deriving DecidableEq

/-- `decode` (decoder.py:47-85).  `zd` is the external `zlib.decompress`,
returning `none` where the library would raise `zlib.error`.  Every failure
path of the Python function returns `None`; no exception escapes. -/
def decode (zd : List ℕ → Option (List ℕ)) (payload : List ℕ)
    (method : String) : Option DecodeResult :=
  if method = "none" then
    (unpack_and_reconstruct payload).map DecodeResult.sample
  else if method = "zlib" then
    match zd payload with
    | none => none
    | some buf => (unpack_and_reconstruct buf).map DecodeResult.sample
  else if method = "bam" then
    some (DecodeResult.bam (fromLE payload))
  else if method = "dummy_24b" then
    if payload.length = 24 then some (DecodeResult.dummy 24) else none
  else if method = "dummy_16b" then
    if payload.length = 16 then some (DecodeResult.dummy 16) else none
  else if method = "dummy_8b" then
    if payload.length = 8 then some (DecodeResult.dummy 8) else none
  else none

/-! ## Receiver loop (`src/source/receiver/receiver.py`, `receive_loop`)

After the handshake the receiver sits in an endless loop (receiver.py:194-348)
reading one byte at a time with `timeout = 0.05` and
`inter_byte_timeout = 0.02`.  We model the incoming byte stream as a
`List (Option ℕ)`: `some b` is a byte delivered in time, `none` is an expired
read timeout, and the end of the list is a permanent timeout.  Each loop
iteration is a step of a small state machine; observable side effects
(control responses written to the port, calls into `decoder.decode`) are
collected as an event trace. -/

/-- Observable actions of the receiver loop, in the order the Python code
performs them. -/
inductive Event where
  | ctrlSent (t : ℕ) (s : ℕ)
  | frameRecv (s : ℕ) (payload : List ℕ)
  | decodeAttempt (s : ℕ) (payload : List ℕ) (result : Option DecodeResult)
deriving DecidableEq

/-- Receiver-loop control point between two serial reads:
`idle` — about to classify a first byte (receiver.py:195);
`awaitCtrlSeq` — read the control TYPE `0x50`, awaiting its SEQ byte
(receiver.py:206);
`reading len acc` — read a LENGTH byte `len ∈ [2,57]`, accumulating the `len`
content bytes (receiver.py:230);
`awaitRssi seq payload` — content complete, about to read the optional RSSI
byte (receiver.py:236). -/
inductive RxState where
  | idle
  | awaitCtrlSeq
  | reading (len : ℕ) (acc : List ℕ)
  | awaitRssi (s : ℕ) (payload : List ℕ)
deriving DecidableEq

/-- One serial read of the receiver loop.  `dec` is the call
`decoder.decode(payload, method=SENDER_COMPRESSION_METHOD)`.

* In `idle`, byte `0x50` (the only member of
  `KNOWN_CONTROL_TYPES_FROM_SENDER`) starts a control packet; a byte in
  `VALID_DATA_PKT_LENGTH_RANGE = range(2, 58)` starts a data frame; every
  other byte is discarded (receiver.py:347-348).
* In `awaitCtrlSeq`, a byte is answered with Permit `(0x55, seq)`
  (receiver.py:215); a timeout abandons the packet (the `in_waiting` drain of
  receiver.py:219-221 is a no-op here: a read that just timed out implies an
  empty input buffer at that instant).
* In `reading`, a timeout yields a short read, the candidate frame is dropped
  (receiver.py:340-344); once all `len` bytes are in, the RSSI read follows.
* In `awaitRssi`, the read consumes one byte or one timeout, then — in the
  code's order — the frame is reported, DataAck `(0xAA, seq)` is written
  (receiver.py:264), and only then is the decoder invoked (receiver.py:268). -/
def rxStep (dec : List ℕ → Option DecodeResult) :
    RxState → Option ℕ → RxState × List Event
  | .idle, none => (.idle, [])
  | .idle, some b =>
      if b = 80 then (.awaitCtrlSeq, [])
      else if 2 ≤ b ∧ b ≤ 57 then (.reading b [], [])
      else (.idle, [])
  | .awaitCtrlSeq, none => (.idle, [])
  | .awaitCtrlSeq, some q => (.idle, [.ctrlSent 85 q])
  | .reading _ _, none => (.idle, [])
  | .reading len acc, some b =>
      if acc.length + 1 = len then
        match acc ++ [b] with
        | [] => (.idle, [])
        | s :: p => (.awaitRssi s p, [])
      else (.reading len (acc ++ [b]), [])
  | .awaitRssi s p, _ =>
      (.idle, [.frameRecv s p, .ctrlSent 170 s, .decodeAttempt s p (dec p)])

/-- Run the receiver loop over a timed byte stream, threading the state and
concatenating the event trace. -/
def rxProc (dec : List ℕ → Option DecodeResult) :
    RxState → List (Option ℕ) → RxState × List Event
  | st, [] => (st, [])
  | st, x :: rest =>
      let se := rxStep dec st x
      let sr := rxProc dec se.1 rest
      (sr.1, se.2 ++ sr.2)

/-- The event trace of the receiver loop started in `idle` (the state right
after the handshake). -/
def rxRun (dec : List ℕ → Option DecodeResult) (stream : List (Option ℕ)) :
    List Event :=
  (rxProc dec .idle stream).2

/-- Turn a list of byte bursts into a timed stream: the bytes of each burst
arrive back-to-back, and a read timeout separates consecutive bursts (the
LoRa link is half-duplex stop-and-wait, so distinct protocol units are always
separated by more than the 20 ms inter-byte timeout). -/
def unitStream (units : List (List ℕ)) : List (Option ℕ) :=
  units.foldr (fun u acc => u.map some ++ none :: acc) []

/-- The bytes `send_data` writes for one data frame (sender.py:264-268):
`LENGTH = len(frames[0]) = 1 + len(payload)`, then the frame content
`SEQ :: payload`. -/
def frameUnit (seq : ℕ) (payload : List ℕ) : List ℕ :=
  (payload.length + 1) :: seq :: payload

/-- The handshake beacon `b"SYN\r\n"`. -/
def synUnit : List ℕ := [83, 89, 78, 13, 10]

/-- A garbage byte in the sense of the framing claim: not a control TYPE, not
the SYN lead-in, and not a valid data LENGTH. -/
def Garbage (b : ℕ) : Prop :=
  b ≠ 0 ∧ b ≠ 80 ∧ b ≠ 85 ∧ b ≠ 170 ∧ b ≠ 83 ∧ ¬(2 ≤ b ∧ b ≤ 57)

instance (b : ℕ) : Decidable (Garbage b) := by
  unfold Garbage
  infer_instance

/-- `vs` is `us` with garbage bytes inserted between protocol units, each
arriving as its own read. -/
inductive GarbageIns : List (List ℕ) → List (List ℕ) → Prop where
  | nil : GarbageIns [] []
  | keep (u : List ℕ) {us vs : List (List ℕ)} :
      GarbageIns us vs → GarbageIns (u :: us) (u :: vs)
  | garb (b : ℕ) {us vs : List (List ℕ)} :
      Garbage b → GarbageIns us vs → GarbageIns us ([b] :: vs)

/-- The data frames a trace reports (receiver.py:255-256). -/
def dataFramesOf (tr : List Event) : List (ℕ × List ℕ) :=
  tr.filterMap fun e =>
    match e with
    | .frameRecv s p => some (s, p)
    | _ => none

/-! ## Transmitter (`src/source/transmitter/sender.py`) -/

/-- The Data / DataAck retry loop of `send_data` (sender.py:356-427), after a
Permit was granted.  `resp` gives, for each attempt number, the outcome of
the 2-byte ACK read: `none` for a timeout or short read, `some (t, q)` for an
unpacked `TYPE, SEQ` pair.  Writing the frame is counted; the loop exits early
on a matching DataAck `(0xAA, seq)` and otherwise retries until the attempt
budget is exhausted.  Returns (number of Data transmissions, ACK received). -/
def send_attempts (seq : ℕ) (resp : ℕ → Option (ℕ × ℕ)) :
    ℕ → ℕ → ℕ × Bool
  | 0, sent => (sent, false)
  | n + 1, sent =>
      match resp (sent + 1) with
      | some tq =>
          if tq.1 = 170 ∧ tq.2 = seq then (sent + 1, true)
          else send_attempts seq resp n (sent + 1)
      | none => send_attempts seq resp n (sent + 1)

/-- The whole data phase for one message with retry budget `R`
(`effective_retry_data_ack`, which is 3 in reliable mode and 1 in PDR mode,
sender.py:210-225). -/
def data_phase (R : ℕ) (seq : ℕ) (resp : ℕ → Option (ℕ × ℕ)) : ℕ × Bool :=
  send_attempts seq resp R 0

/-- `reliable_ok_count` increment for one message (sender.py:429-431). -/
def ok_delta (ackReceived : Bool) : ℕ := if ackReceived then 1 else 0

/-- The transmitter's serial handle at the instant a response wait begins:
`buffer` holds bytes already received and buffered by the OS, `incoming` the
bytes that will arrive during the wait. -/
structure SerialPort where
  buffer : List ℕ
  incoming : List ℕ
deriving DecidableEq

/-- `s.reset_input_buffer()`: discard everything buffered. -/
def reset_input_buffer (p : SerialPort) : SerialPort :=
  { p with buffer := [] }

/-- The wait for a Permit (sender.py:302-303) and the wait for a DataAck
(sender.py:383-384): `s.reset_input_buffer()` immediately followed by
`s.read(ACK_PACKET_LEN)`, which serves buffered bytes first and then bytes
arriving before the timeout. -/
def await_ack (p : SerialPort) : List ℕ :=
  let q := reset_input_buffer p
  (q.buffer ++ q.incoming).take 2

/-! ## Stale frame builder (`src/source/transmitter/packetizer.py`) -/

/-- Modelled from the spec: `split_into_packets` is imported by
`packetizer.py:12` from `encoder.py` but is absent from the source tree (the
current `encoder.py` replaced it with `create_frame`).  Per the surviving
in-repo documentation (packetizer.py:33-46: the chunk `seq` "is set to 1 by
the encoder", and empty data yields `[{"seq": 1, "payload": b""}]`), it wraps
the whole blob in a single chunk whose `seq` field is the constant 1. -/
def split_into_packets (blob : List ℕ) : List (ℕ × List ℕ) :=
  [(1, blob)]

/-- `make_frames` (packetizer.py:22-52): compress the sample (via the likewise
missing `compress_data`, here an abstract parameter), wrap the blob in a
single chunk and emit the frame content `[chunk-seq | payload]`.  Note that
`pkt_id` — the message SEQ counter passed by `send_data` (sender.py:251) — is
not used in the frame at all. -/
def make_frames (compressData : Sample → List ℕ) (sample : Sample)
    (pkt_id : ℕ) : List (List ℕ) :=
  let blob := compressData sample
  if blob = [] then []
  else
    match split_into_packets blob with
    | [] => []
    | p :: _ => [p.1 :: p.2]

/-! ## Concrete inputs used by witnesses and counterexamples -/

/-- The happy-path sample of spec §8 scenario 1:
`ts=1700000000, accel=(0,0,1), gyro=(0,0,0), angle=(0,0,0),
gps=(37.5, 127.0, 30)`; `lat`/`lon` are the `f32` bit patterns of 37.5
(`0x42160000`) and 127.0 (`0x42FE0000`). -/
def sample0 : Sample :=
  { ts := 1700000000, ax := 0, ay := 0, az := 1,
    gx := 0, gy := 0, gz := 0, roll := 0, pitch := 0, yaw := 0,
    lat := 1108606976, lon := 1124073472, alt := 30 }

/-- A decoder stub that always reports the payload undecodable. -/
def dec0 : List ℕ → Option DecodeResult := fun _ => none

/-- A deterministic stand-in for `os.urandom`: `n` bytes of `0xCC`
(spec §8 scenario 2). -/
def urandom0 : ℕ → List ℕ := fun n => List.replicate n 204

/-- The 8-byte dummy payload of spec §8 scenarios 2 and 6. -/
def payload8 : List ℕ := List.replicate 8 204

/-! ## Helper lemmas: quantisation and byte-level round-trips -/

theorem pyInt_abs (q : ℚ) : |(pyInt q : ℚ) - q| ≤ 1 := by
  unfold pyInt
  split
  · have h1 : ((⌊q⌋ : ℤ) : ℚ) ≤ q := Int.floor_le q
    have h2 : q < ⌊q⌋ + 1 := Int.lt_floor_add_one q
    rw [abs_le]
    constructor <;> linarith
  · have h1 : q ≤ ((⌈q⌉ : ℤ) : ℚ) := Int.le_ceil q
    have h2 : ((⌈q⌉ : ℤ) : ℚ) < q + 1 := Int.ceil_lt_add_one q
    rw [abs_le]
    constructor <;> linarith

theorem pyInt_bounds (q : ℚ) (lo hi : ℤ) (h1 : (lo : ℚ) ≤ q) (h2 : q ≤ (hi : ℚ)) :
    lo ≤ pyInt q ∧ pyInt q ≤ hi := by
  unfold pyInt
  split
  · refine ⟨Int.le_floor.mpr h1, ?_⟩
    calc ⌊q⌋ ≤ ⌊(hi : ℚ)⌋ := Int.floor_le_floor h2
    _ = hi := Int.floor_intCast hi
  · refine ⟨?_, Int.ceil_le.mpr h2⟩
    calc lo = ⌈(lo : ℚ)⌉ := (Int.ceil_intCast lo).symm
    _ ≤ ⌈q⌉ := Int.ceil_le_ceil h1

theorem u32_digits (n : ℕ) (h : n < 4294967296) :
    n % 256 + 256 * (n / 256 % 256) + 65536 * (n / 65536 % 256)
      + 16777216 * (n / 16777216 % 256) = n := by
  omega

theorem i16_roundtrip (n : ℤ) (h1 : -32768 ≤ n) (h2 : n ≤ 32767) :
    (if (n % 65536).toNat % 256 + 256 * ((n % 65536).toNat / 256 % 256) < 32768
      then (((n % 65536).toNat % 256 + 256 * ((n % 65536).toNat / 256 % 256) : ℕ) : ℤ)
      else (((n % 65536).toNat % 256 + 256 * ((n % 65536).toNat / 256 % 256) : ℕ) : ℤ) - 65536)
      = n := by
  split <;> omega

theorem i16At_pack (buf : List ℕ) (i : ℕ) (n : ℤ)
    (he : u16At buf i
      = (n % 65536).toNat % 256 + 256 * ((n % 65536).toNat / 256 % 256))
    (h1 : -32768 ≤ n) (h2 : n ≤ 32767) : i16At buf i = n := by
  unfold i16At
  rw [he]
  exact i16_roundtrip n h1 h2

theorem quant_err (v c : ℚ) (hc : 0 < c) :
    |(pyInt (v * c) : ℚ) / c - v| ≤ 1 / c := by
  have h := pyInt_abs (v * c)
  have hrw : (pyInt (v * c) : ℚ) / c - v = ((pyInt (v * c) : ℚ) - v * c) / c := by
    field_simp
    ring
  rw [hrw, abs_div, abs_of_pos hc]
  gcongr

/-- What `decode` reconstructs from a packed in-range sample: every scaled
field truncated to its grid. -/
theorem unpack_packSample (s : Sample) (h : packOk s) :
    unpack_and_reconstruct (packSample s) = some
      { ts := (s.ts : ℚ)
        ax := (pyInt (s.ax * 1000) : ℚ) / 1000
        ay := (pyInt (s.ay * 1000) : ℚ) / 1000
        az := (pyInt (s.az * 1000) : ℚ) / 1000
        gx := (pyInt (s.gx * 10) : ℚ) / 10
        gy := (pyInt (s.gy * 10) : ℚ) / 10
        gz := (pyInt (s.gz * 10) : ℚ) / 10
        roll := (pyInt (s.roll * 10) : ℚ) / 10
        pitch := (pyInt (s.pitch * 10) : ℚ) / 10
        yaw := (pyInt (s.yaw * 10) : ℚ) / 10
        lat := s.lat
        lon := s.lon
        alt := (pyInt (s.alt * 10) : ℚ) / 10 } := by
  obtain ⟨hts, hlat, hlon, hax, hay, haz, hgx, hgy, hgz, hro, hpi, hya, hal⟩ := h
  have hflat : packSample s =
      [s.ts % 256, s.ts / 256 % 256, s.ts / 65536 % 256, s.ts / 16777216 % 256,
       (pyInt (s.ax * 1000) % 65536).toNat % 256,
       (pyInt (s.ax * 1000) % 65536).toNat / 256 % 256,
       (pyInt (s.ay * 1000) % 65536).toNat % 256,
       (pyInt (s.ay * 1000) % 65536).toNat / 256 % 256,
       (pyInt (s.az * 1000) % 65536).toNat % 256,
       (pyInt (s.az * 1000) % 65536).toNat / 256 % 256,
       (pyInt (s.gx * 10) % 65536).toNat % 256,
       (pyInt (s.gx * 10) % 65536).toNat / 256 % 256,
       (pyInt (s.gy * 10) % 65536).toNat % 256,
       (pyInt (s.gy * 10) % 65536).toNat / 256 % 256,
       (pyInt (s.gz * 10) % 65536).toNat % 256,
       (pyInt (s.gz * 10) % 65536).toNat / 256 % 256,
       (pyInt (s.roll * 10) % 65536).toNat % 256,
       (pyInt (s.roll * 10) % 65536).toNat / 256 % 256,
       (pyInt (s.pitch * 10) % 65536).toNat % 256,
       (pyInt (s.pitch * 10) % 65536).toNat / 256 % 256,
       (pyInt (s.yaw * 10) % 65536).toNat % 256,
       (pyInt (s.yaw * 10) % 65536).toNat / 256 % 256,
       s.lat % 256, s.lat / 256 % 256, s.lat / 65536 % 256, s.lat / 16777216 % 256,
       s.lon % 256, s.lon / 256 % 256, s.lon / 65536 % 256, s.lon / 16777216 % 256,
       (pyInt (s.alt * 10) % 65536).toNat % 256,
       (pyInt (s.alt * 10) % 65536).toNat / 256 % 256] := rfl
  rw [hflat]
  set L := [s.ts % 256, s.ts / 256 % 256, s.ts / 65536 % 256, s.ts / 16777216 % 256,
       (pyInt (s.ax * 1000) % 65536).toNat % 256,
       (pyInt (s.ax * 1000) % 65536).toNat / 256 % 256,
       (pyInt (s.ay * 1000) % 65536).toNat % 256,
       (pyInt (s.ay * 1000) % 65536).toNat / 256 % 256,
       (pyInt (s.az * 1000) % 65536).toNat % 256,
       (pyInt (s.az * 1000) % 65536).toNat / 256 % 256,
       (pyInt (s.gx * 10) % 65536).toNat % 256,
       (pyInt (s.gx * 10) % 65536).toNat / 256 % 256,
       (pyInt (s.gy * 10) % 65536).toNat % 256,
       (pyInt (s.gy * 10) % 65536).toNat / 256 % 256,
       (pyInt (s.gz * 10) % 65536).toNat % 256,
       (pyInt (s.gz * 10) % 65536).toNat / 256 % 256,
       (pyInt (s.roll * 10) % 65536).toNat % 256,
       (pyInt (s.roll * 10) % 65536).toNat / 256 % 256,
       (pyInt (s.pitch * 10) % 65536).toNat % 256,
       (pyInt (s.pitch * 10) % 65536).toNat / 256 % 256,
       (pyInt (s.yaw * 10) % 65536).toNat % 256,
       (pyInt (s.yaw * 10) % 65536).toNat / 256 % 256,
       s.lat % 256, s.lat / 256 % 256, s.lat / 65536 % 256, s.lat / 16777216 % 256,
       s.lon % 256, s.lon / 256 % 256, s.lon / 65536 % 256, s.lon / 16777216 % 256,
       (pyInt (s.alt * 10) % 65536).toNat % 256,
       (pyInt (s.alt * 10) % 65536).toNat / 256 % 256] with hLdef
  have hlen : L.length = 32 := rfl
  have hts2 : u32At L 0 = s.ts := by
    have e : u32At L 0
        = s.ts % 256 + 256 * (s.ts / 256 % 256) + 65536 * (s.ts / 65536 % 256)
          + 16777216 * (s.ts / 16777216 % 256) := rfl
    rw [e]
    exact u32_digits s.ts hts
  have hlat2 : u32At L 22 = s.lat := by
    have e : u32At L 22
        = s.lat % 256 + 256 * (s.lat / 256 % 256) + 65536 * (s.lat / 65536 % 256)
          + 16777216 * (s.lat / 16777216 % 256) := rfl
    rw [e]
    exact u32_digits s.lat hlat
  have hlon2 : u32At L 26 = s.lon := by
    have e : u32At L 26
        = s.lon % 256 + 256 * (s.lon / 256 % 256) + 65536 * (s.lon / 65536 % 256)
          + 16777216 * (s.lon / 16777216 % 256) := rfl
    rw [e]
    exact u32_digits s.lon hlon
  have hax2 : i16At L 4 = pyInt (s.ax * 1000) :=
    i16At_pack _ 4 (pyInt (s.ax * 1000)) rfl hax.1 hax.2
  have hay2 : i16At L 6 = pyInt (s.ay * 1000) :=
    i16At_pack _ 6 (pyInt (s.ay * 1000)) rfl hay.1 hay.2
  have haz2 : i16At L 8 = pyInt (s.az * 1000) :=
    i16At_pack _ 8 (pyInt (s.az * 1000)) rfl haz.1 haz.2
  have hgx2 : i16At L 10 = pyInt (s.gx * 10) :=
    i16At_pack _ 10 (pyInt (s.gx * 10)) rfl hgx.1 hgx.2
  have hgy2 : i16At L 12 = pyInt (s.gy * 10) :=
    i16At_pack _ 12 (pyInt (s.gy * 10)) rfl hgy.1 hgy.2
  have hgz2 : i16At L 14 = pyInt (s.gz * 10) :=
    i16At_pack _ 14 (pyInt (s.gz * 10)) rfl hgz.1 hgz.2
  have hro2 : i16At L 16 = pyInt (s.roll * 10) :=
    i16At_pack _ 16 (pyInt (s.roll * 10)) rfl hro.1 hro.2
  have hpi2 : i16At L 18 = pyInt (s.pitch * 10) :=
    i16At_pack _ 18 (pyInt (s.pitch * 10)) rfl hpi.1 hpi.2
  have hya2 : i16At L 20 = pyInt (s.yaw * 10) :=
    i16At_pack _ 20 (pyInt (s.yaw * 10)) rfl hya.1 hya.2
  have hal2 : i16At L 30 = pyInt (s.alt * 10) :=
    i16At_pack _ 30 (pyInt (s.alt * 10)) rfl hal.1 hal.2
  unfold unpack_and_reconstruct
  rw [if_pos hlen, hts2, hlat2, hlon2, hax2, hay2, haz2, hgx2, hgy2, hgz2,
    hro2, hpi2, hya2, hal2, div_one]

/-! ## C1 — codec round-trip -/

/-- A scaled value lies inside the representable `i16` range. -/
abbrev inI16 (q : ℚ) : Prop := -32768 ≤ q ∧ q ≤ 32767

/-- The representable ranges of the round-trip claim: `ts` fits `u32`, the
`f32` bit patterns are 32-bit words, and each scaled value lies in the `i16`
range. -/
abbrev InRangeS (s : Sample) : Prop :=
  s.ts < 4294967296 ∧ s.lat < 4294967296 ∧ s.lon < 4294967296 ∧
  inI16 (s.ax * 1000) ∧ inI16 (s.ay * 1000) ∧ inI16 (s.az * 1000) ∧
  inI16 (s.gx * 10) ∧ inI16 (s.gy * 10) ∧ inI16 (s.gz * 10) ∧
  inI16 (s.roll * 10) ∧ inI16 (s.pitch * 10) ∧ inI16 (s.yaw * 10) ∧
  inI16 (s.alt * 10)

theorem inI16_i16ok (q : ℚ) (h : inI16 q) : i16ok q := by
  have := pyInt_bounds q (-32768) 32767 (by exact_mod_cast h.1) (by exact_mod_cast h.2)
  exact this

theorem InRangeS_packOk (s : Sample) (h : InRangeS s) : packOk s := by
  obtain ⟨h1, h2, h3, h4, h5, h6, h7, h8, h9, h10, h11, h12, h13⟩ := h
  exact ⟨h1, h2, h3, inI16_i16ok _ h4, inI16_i16ok _ h5, inI16_i16ok _ h6,
    inI16_i16ok _ h7, inI16_i16ok _ h8, inI16_i16ok _ h9, inI16_i16ok _ h10,
    inI16_i16ok _ h11, inI16_i16ok _ h12, inI16_i16ok _ h13⟩

/-- C1.  For every sample whose numeric fields lie inside the representable
ranges (`ts` a non-negative integer fitting `u32`; accel values with
`value*1000` in `i16` range; gyro, attitude and altitude values with
`value*10` in `i16` range; `lat`/`lon` finite `f32`, modelled by their 32-bit
patterns), decoding the encoded payload with the same mode returns a sample
equal to the original within the quantisation tolerances — accel within
0.001 g, gyro/attitude within 0.1°, lat/lon bit-exact, altitude within
0.1 m — and the timestamp exactly.  Mode raw/none: the encoder's mode string
is `"raw"` (`compress_layer` passes the packed blob through) and the
decoder's is `"none"`.  Mode zlib: the DEFLATE layer is absent from
`src/source/transmitter/encoder.py` (the old `compress_data` survives only as
an import in `packetizer.py`), so it is modelled from the spec as an abstract
compression `zc` with the DEFLATE inversion property
`zd (zc b) = some b` against the receiver's actual zlib branch
(decoder.py:52-54). -/
theorem c1_codec_roundtrip (zc : List ℕ → List ℕ)
    (zd : List ℕ → Option (List ℕ)) (hinv : ∀ b, zd (zc b) = some b)
    (s : Sample) (hr : InRangeS s) :
    ∃ r : RSample,
      compress_layer (pack_data s) "raw" = some (pack_data s) ∧
      decode zd (pack_data s) "none" = some (DecodeResult.sample r) ∧
      decode zd (zc (pack_data s)) "zlib" = some (DecodeResult.sample r) ∧
      r.ts = (s.ts : ℚ) ∧ r.lat = s.lat ∧ r.lon = s.lon ∧
      |r.ax - s.ax| ≤ 1 / 1000 ∧ |r.ay - s.ay| ≤ 1 / 1000 ∧
      |r.az - s.az| ≤ 1 / 1000 ∧
      |r.gx - s.gx| ≤ 1 / 10 ∧ |r.gy - s.gy| ≤ 1 / 10 ∧
      |r.gz - s.gz| ≤ 1 / 10 ∧
      |r.roll - s.roll| ≤ 1 / 10 ∧ |r.pitch - s.pitch| ≤ 1 / 10 ∧
      |r.yaw - s.yaw| ≤ 1 / 10 ∧ |r.alt - s.alt| ≤ 1 / 10 := by
  have hok : packOk s := InRangeS_packOk s hr
  have hpd : pack_data s = packSample s := by
    unfold pack_data
    rw [if_pos hok]
  have hun := unpack_packSample s hok
  refine ⟨{ ts := (s.ts : ℚ)
            ax := (pyInt (s.ax * 1000) : ℚ) / 1000
            ay := (pyInt (s.ay * 1000) : ℚ) / 1000
            az := (pyInt (s.az * 1000) : ℚ) / 1000
            gx := (pyInt (s.gx * 10) : ℚ) / 10
            gy := (pyInt (s.gy * 10) : ℚ) / 10
            gz := (pyInt (s.gz * 10) : ℚ) / 10
            roll := (pyInt (s.roll * 10) : ℚ) / 10
            pitch := (pyInt (s.pitch * 10) : ℚ) / 10
            yaw := (pyInt (s.yaw * 10) : ℚ) / 10
            lat := s.lat
            lon := s.lon
            alt := (pyInt (s.alt * 10) : ℚ) / 10 },
    ?_, ?_, ?_, ?_, ?_, ?_, ?_, ?_, ?_, ?_, ?_, ?_, ?_, ?_, ?_, ?_⟩
  · unfold compress_layer
    rfl
  · rw [hpd]
    unfold decode
    rw [if_pos rfl, hun]
    rfl
  · rw [hpd]
    unfold decode
    rw [if_neg (by decide), if_pos rfl, hinv (packSample s)]
    show Option.map DecodeResult.sample (unpack_and_reconstruct (packSample s)) = _
    rw [hun]
    rfl
  · rfl
  · rfl
  · rfl
  · exact quant_err s.ax 1000 (by norm_num)
  · exact quant_err s.ay 1000 (by norm_num)
  · exact quant_err s.az 1000 (by norm_num)
  · exact quant_err s.gx 10 (by norm_num)
  · exact quant_err s.gy 10 (by norm_num)
  · exact quant_err s.gz 10 (by norm_num)
  · exact quant_err s.roll 10 (by norm_num)
  · exact quant_err s.pitch 10 (by norm_num)
  · exact quant_err s.yaw 10 (by norm_num)
  · exact quant_err s.alt 10 (by norm_num)

/-- Witness for C1: the round-trip theorem applied at the happy-path sample
of spec §8 scenario 1, with the identity pair standing for a
decompress-inverts-compress DEFLATE implementation. -/
theorem c1_codec_roundtrip_witness :
    InRangeS sample0 ∧
    (∀ b, (fun x : List ℕ => some x) ((fun x : List ℕ => x) b) = some b) ∧
    ∃ r : RSample,
      compress_layer (pack_data sample0) "raw" = some (pack_data sample0) ∧
      decode (fun x => some x) (pack_data sample0) "none"
        = some (DecodeResult.sample r) ∧
      decode (fun x => some x) ((fun x : List ℕ => x) (pack_data sample0)) "zlib"
        = some (DecodeResult.sample r) ∧
      r.ts = (sample0.ts : ℚ) ∧ r.lat = sample0.lat ∧ r.lon = sample0.lon ∧
      |r.ax - sample0.ax| ≤ 1 / 1000 ∧ |r.ay - sample0.ay| ≤ 1 / 1000 ∧
      |r.az - sample0.az| ≤ 1 / 1000 ∧
      |r.gx - sample0.gx| ≤ 1 / 10 ∧ |r.gy - sample0.gy| ≤ 1 / 10 ∧
      |r.gz - sample0.gz| ≤ 1 / 10 ∧
      |r.roll - sample0.roll| ≤ 1 / 10 ∧ |r.pitch - sample0.pitch| ≤ 1 / 10 ∧
      |r.yaw - sample0.yaw| ≤ 1 / 10 ∧ |r.alt - sample0.alt| ≤ 1 / 10 :=
  ⟨by norm_num [InRangeS, inI16, sample0], fun b => rfl,
    c1_codec_roundtrip (fun x => x) (fun x => some x) (fun b => rfl) sample0
      (by norm_num [InRangeS, inI16, sample0])⟩

/-! ## C9 — decoder error handling -/

/-- C9.  For every byte-string payload and mode in none/zlib, the
receiver-side `decode` never raises — in this embedding it is a total
function into `Option`, every Python failure path (`struct` length mismatch,
`zlib.error`, the catch-all handler, decoder.py:80-85) returning `None` —
and it returns `None` exactly when the raw (resp. decompressed) buffer is
not 32 bytes or decompression fails; otherwise it returns a reconstructed
sample record. -/
theorem c9_decode_error_handling (zd : List ℕ → Option (List ℕ))
    (payload : List ℕ) :
    ((decode zd payload "none").isSome ↔ payload.length = 32) ∧
    ((decode zd payload "zlib").isSome ↔
      ∃ buf, zd payload = some buf ∧ buf.length = 32) ∧
    (∀ r, decode zd payload "none" = some r →
      ∃ m, r = DecodeResult.sample m) ∧
    (∀ r, decode zd payload "zlib" = some r →
      ∃ m, r = DecodeResult.sample m) := by
  refine ⟨?_, ?_, ?_, ?_⟩
  · simp [decode, unpack_and_reconstruct]
  · cases hz : zd payload with
    | none => simp [decode, hz]
    | some buf => simp [decode, hz, unpack_and_reconstruct]
  · intro r h
    rcases hu : unpack_and_reconstruct payload with _ | m <;>
      simp [decode, hu] at h
    exact ⟨m, h.symm⟩
  · intro r h
    rcases hz : zd payload with _ | buf <;> simp [decode, hz] at h
    rcases hu : unpack_and_reconstruct buf with _ | m <;> rw [hu] at h <;>
      simp at h
    exact ⟨m, h.symm⟩

/-- Witness for C9: a 32-byte buffer decodes in mode none; a 31-byte buffer
does not. -/
theorem c9_decode_error_handling_witness :
    (decode (fun x => some x) (List.replicate 32 0) "none").isSome ∧
    ¬(decode (fun x => some x) (List.replicate 31 0) "none").isSome :=
  ⟨(c9_decode_error_handling (fun x => some x) (List.replicate 32 0)).1.mpr
      (by simp),
    fun h => by
      have h2 := (c9_decode_error_handling (fun x => some x)
        (List.replicate 31 0)).1.mp h
      simp at h2⟩

/-! ## C4 — the "bam" mode is not a 1-byte stub -/

/-- Counterexample for C4.  The claim says mode `"bam"` yields a 1-byte
payload equal to the low 8 bits of `ts`.  In `compress_layer`
(encoder.py:70-75) the BAM branch is an unimplemented stub that returns the
packed data unchanged ("임시로 원본 반환"): on the concrete sample of spec §8
scenario 1 the bam payload is the whole 32-byte packed blob, which in
particular is not the 1-byte list `[sample0.ts % 256]`. -/
theorem c4_counterexample :
    compress_layer (pack_data sample0) "bam" = some (pack_data sample0) ∧
    (pack_data sample0).length = 32 ∧
    pack_data sample0 ≠ [sample0.ts % 256] := by
  have hok : packOk sample0 :=
    InRangeS_packOk sample0 (by norm_num [InRangeS, inI16, sample0])
  have hpd : pack_data sample0 = packSample sample0 := by
    unfold pack_data
    rw [if_pos hok]
  have hlen : (packSample sample0).length = 32 := rfl
  refine ⟨rfl, by rw [hpd]; exact hlen, ?_⟩
  intro h
  have := congrArg List.length h
  rw [hpd, hlen] at this
  simp at this

/-- C4 as amended: `compress_layer` with mode `"bam"` is a pass-through stub —
it returns every packed payload unchanged (in particular the 32-byte blob,
never a 1-byte code). -/
theorem c4_bam_passthrough (b : List ℕ) : compress_layer b "bam" = some b := rfl

/-! ## C8 — emitted frame content size -/

theorem compress_layer_some (b : List ℕ) (m : String) (p : List ℕ)
    (h : compress_layer b m = some p) : p = b := by
  unfold compress_layer at h
  split at h
  · exact (Option.some.injEq _ _ ▸ h).symm
  · split at h
    · exact (Option.some.injEq _ _ ▸ h).symm
    · exact absurd h (by simp)

/-- C8.  Every frame content `create_frame` returns — for any sample, message
seq, accepted compression mode and dummy `payload_size ≥ 0` (`os.urandom`
modelled by any generator returning the requested number of bytes) — is at
most `MAX_FRAME_CONTENT_SIZE = 57` bytes (encoder.py:118-123 truncates) and
at least 2 bytes, i.e. the data frame's payload (content minus the SEQ byte)
has length in `[1, 56]`. -/
theorem c8_frame_size (urandom : ℕ → List ℕ) (s : Sample) (seq : ℕ)
    (mode : String) (psize : ℕ) (content : List ℕ)
    (hur : ∀ n, (urandom n).length = n)
    (h : create_frame urandom s seq mode psize = some content) :
    2 ≤ content.length ∧ content.length ≤ 57 := by
  unfold create_frame at h
  split at h
  · split at h
    · exact absurd h (by simp)
    · rename_i hpk
      rcases hcl : compress_layer (pack_data s) mode with _ | payload
      · rw [hcl] at h
        exact absurd h (by simp)
      · rw [hcl] at h
        have hpb : payload = pack_data s := compress_layer_some _ _ _ hcl
        have hlen1 : 1 ≤ payload.length := by
          rcases payload with _ | ⟨a, t⟩
          · exact absurd hpb.symm hpk
          · simp
        have hc : content = ((seq % 256) :: payload).take MAX_FRAME_CONTENT_SIZE := by
          injection h with h2
          exact h2.symm
        rw [hc, MAX_FRAME_CONTENT_SIZE]
        rw [List.length_take]
        simp only [List.length_cons]
        omega
  · rename_i hps
    have hc : content = ((seq % 256) :: urandom psize).take MAX_FRAME_CONTENT_SIZE := by
      injection h with h2
      exact h2.symm
    rw [hc, MAX_FRAME_CONTENT_SIZE, List.length_take]
    simp only [List.length_cons, hur psize]
    omega

/-- Witness for C8: the dummy-payload path of spec §8 scenario 2
(8 bytes of `0xCC`, frame content 9 bytes). -/
theorem c8_frame_size_witness :
    (∀ n, (urandom0 n).length = n) ∧
    create_frame urandom0 sample0 0 "raw" 8 = some (0 :: payload8) ∧
    2 ≤ (0 :: payload8).length ∧ (0 :: payload8).length ≤ 57 :=
  ⟨fun n => by simp [urandom0],
    by decide,
    c8_frame_size urandom0 sample0 0 "raw" 8 (0 :: payload8)
      (fun n => by simp [urandom0]) (by decide)⟩

/-! ## C5 — data retry budget -/

theorem send_attempts_no_ack (seq : ℕ) (resp : ℕ → Option (ℕ × ℕ))
    (hresp : ∀ i t q, resp i = some (t, q) → ¬(t = 170 ∧ q = seq)) :
    ∀ n sent, send_attempts seq resp n sent = (sent + n, false) := by
  intro n
  induction n with
  | zero => intro sent; simp [send_attempts]
  | succ m ih =>
    intro sent
    have harith : sent + 1 + m = sent + (m + 1) := by omega
    rw [send_attempts]
    rcases h : resp (sent + 1) with _ | ⟨t, q⟩
    · rw [ih (sent + 1), harith]
    · show (if t = 170 ∧ q = seq then (sent + 1, true)
        else send_attempts seq resp m (sent + 1)) = (sent + (m + 1), false)
      rw [if_neg (hresp _ t q h), ih (sent + 1), harith]

/-- C5.  For every message whose Permit was granted, if the peer never sends
a valid DataAck (every 2-byte read times out, unpacks to a wrong TYPE, or
carries a wrong SEQ), the transmitter writes the Data frame exactly `R` times
— the `while not data_ack_received and data_tx_attempts < R` loop of
sender.py:356-427 — where `R` is `effective_retry_data_ack` (3 in reliable
mode, 1 in PDR mode, sender.py:210-225); the message then counts as dropped:
`data_ack_received` is false and `reliable_ok_count` is not incremented
(sender.py:429-431). -/
theorem c5_retry_budget (seq : ℕ) (resp : ℕ → Option (ℕ × ℕ))
    (hresp : ∀ i t q, resp i = some (t, q) → ¬(t = 170 ∧ q = seq)) (R : ℕ) :
    data_phase R seq resp = (R, false) ∧
    ok_delta (data_phase R seq resp).2 = 0 := by
  have h := send_attempts_no_ack seq resp hresp R 0
  rw [Nat.zero_add] at h
  unfold data_phase
  rw [h]
  exact ⟨rfl, rfl⟩

/-- Witness for C5: a peer that never answers, with the reliable-mode budget
`R = 3`. -/
theorem c5_retry_budget_witness :
    (∀ i t q, (fun _ : ℕ => (none : Option (ℕ × ℕ))) i = some (t, q) →
      ¬(t = 170 ∧ q = 0)) ∧
    data_phase 3 0 (fun _ => none) = (3, false) ∧
    ok_delta (data_phase 3 0 (fun _ => none)).2 = 0 :=
  ⟨fun _ _ _ h => Option.noConfusion h,
    (c5_retry_budget 0 (fun _ => none) (fun _ _ _ h => Option.noConfusion h) 3).1,
    (c5_retry_budget 0 (fun _ => none) (fun _ _ _ h => Option.noConfusion h) 3).2⟩

/-! ## C6 — the Query SEQ never advances (code bug) -/

/-- C6 is false of the code: the spec (and sender.py:268's own comment, "the
first byte of the frame content is MESSAGE_SEQ") require the Query for the
message after a Delivered seq `s` to carry `(s+1) mod 256`, but
`make_frames` ignores its `pkt_id` argument entirely — the frame's first
byte, which `send_data` uses as the SEQ of the Query (sender.py:268,279), is
the chunk seq of `split_into_packets`, the constant 1.  So the frame content
is the same for every message counter value, every Query carries SEQ 1, and
after a Delivered message the next Query still carries 1, not
`(1+1) mod 256 = 2`. -/
theorem c6_seq_advance_bug :
    (∀ (cd : Sample → List ℕ) (s : Sample) (i j : ℕ),
      make_frames cd s i = make_frames cd s j) ∧
    make_frames (fun _ => [7, 7]) sample0 1 = [[1, 7, 7]] ∧
    make_frames (fun _ => [7, 7]) sample0 2 = [[1, 7, 7]] ∧
    (1 : ℕ) ≠ (1 + 1) % 256 :=
  ⟨fun _ _ _ _ => rfl, by decide, by decide, by decide⟩

/-! ## C10 — input buffer cleared before each response wait -/

/-- C10.  Immediately before the wait for a Permit (sender.py:302-303) and
the wait for a DataAck (sender.py:383-384), the transmitter calls
`s.reset_input_buffer()` and only then `s.read(2)`: the bytes served to the
wait are exactly the first two bytes that arrive after the reset, the result
is independent of whatever was buffered when the wait began, and a valid ACK
`0xAA seq` that was already buffered is discarded — with no further arrivals
the wait times out empty. -/
theorem c10_reset_before_wait (p : SerialPort) :
    await_ack p = p.incoming.take 2 ∧
    await_ack p = await_ack { buffer := [], incoming := p.incoming } ∧
    await_ack { buffer := [170, 5], incoming := [] } = [] :=
  ⟨rfl, rfl, rfl⟩

/-! ## Receiver-loop infrastructure lemmas -/

theorem rxStep_none_fst (dec : List ℕ → Option DecodeResult) (st : RxState) :
    (rxStep dec st none).1 = .idle := by
  cases st <;> rfl

theorem rxProc_cons (dec : List ℕ → Option DecodeResult) (st : RxState)
    (x : Option ℕ) (rest : List (Option ℕ)) :
    rxProc dec st (x :: rest)
      = ((rxProc dec (rxStep dec st x).1 rest).1,
         (rxStep dec st x).2 ++ (rxProc dec (rxStep dec st x).1 rest).2) := rfl

theorem rxProc_append (dec : List ℕ → Option DecodeResult) (st : RxState)
    (a b : List (Option ℕ)) :
    rxProc dec st (a ++ b)
      = ((rxProc dec (rxProc dec st a).1 b).1,
         (rxProc dec st a).2 ++ (rxProc dec (rxProc dec st a).1 b).2) := by
  induction a generalizing st with
  | nil => simp [rxProc]
  | cons x xs ih =>
    rw [List.cons_append, rxProc_cons, ih (rxStep dec st x).1, rxProc_cons]
    simp [List.append_assoc]

theorem rxProc_end_none (dec : List ℕ → Option DecodeResult) (st : RxState)
    (l : List (Option ℕ)) : (rxProc dec st (l ++ [none])).1 = .idle := by
  rw [rxProc_append]
  simp [rxProc, rxStep_none_fst]

/-- Processing one burst followed by a timeout: the events of the burst are
emitted, the state returns to `idle`, and processing continues independently
on the remainder of the stream. -/
theorem rxProc_unit (dec : List ℕ → Option DecodeResult) (u : List ℕ)
    (T : List (Option ℕ)) :
    rxProc dec .idle (u.map some ++ none :: T)
      = ((rxProc dec .idle T).1,
         (rxProc dec .idle (u.map some ++ [none])).2 ++ (rxProc dec .idle T).2) := by
  have hsplit : u.map some ++ none :: T = (u.map some ++ [none]) ++ T := by
    simp
  rw [hsplit, rxProc_append, rxProc_end_none]

theorem unitStream_cons (u : List ℕ) (us : List (List ℕ)) :
    unitStream (u :: us) = u.map some ++ none :: unitStream us := rfl

/-- Feeding the body bytes of a data frame to the `reading` state: once the
announced number of bytes has arrived the receiver holds `(seq, payload)` and
waits for the RSSI byte. -/
theorem reading_consume (dec : List ℕ → Option DecodeResult) :
    ∀ (bs acc : List ℕ) (len s : ℕ) (p : List ℕ) (rest : List (Option ℕ)),
      acc ++ bs = s :: p → (acc ++ bs).length = len → bs ≠ [] →
      rxProc dec (.reading len acc) (bs.map some ++ rest)
        = rxProc dec (.awaitRssi s p) rest := by
  intro bs
  induction bs with
  | nil => intro acc len s p rest _ _ hne; exact absurd rfl hne
  | cons b bs ih =>
    intro acc len s p rest hsp hlen _
    rcases bs with _ | ⟨b2, bs2⟩
    · have hfill : acc.length + 1 = len := by
        simpa using hlen
      have hstep : rxStep dec (.reading len acc) (some b) = (.awaitRssi s p, []) := by
        simp only [rxStep]
        rw [if_pos hfill, hsp]
      simp only [List.map_cons, List.map_nil, List.cons_append, List.nil_append]
      rw [rxProc_cons, hstep]
      simp
    · have hfill : ¬(acc.length + 1 = len) := by
        rw [← hlen]
        simp
      have hsp2 : (acc ++ [b]) ++ b2 :: bs2 = s :: p := by
        simpa using hsp
      have hlen2 : ((acc ++ [b]) ++ b2 :: bs2).length = len := by
        rw [← hlen]
        simp
      have hstep : rxStep dec (.reading len acc) (some b)
          = (.reading len (acc ++ [b]), []) := by
        simp only [rxStep]
        rw [if_neg hfill]
      simp only [List.map_cons, List.cons_append]
      rw [rxProc_cons, hstep]
      simp only [List.map_cons, List.cons_append] at ih ⊢
      rw [ih (acc ++ [b]) len s p rest hsp2 hlen2 (by simp)]
      simp

/-- A well-formed data-frame burst produces exactly the three frame events —
frame received, DataAck written, decoder invoked — and returns to `idle`. -/
theorem frame_unit_events (dec : List ℕ → Option DecodeResult) (seq : ℕ)
    (payload : List ℕ) (h1 : 1 ≤ payload.length) (h2 : payload.length ≤ 56) :
    rxProc dec .idle ((frameUnit seq payload).map some ++ [none])
      = (.idle, [.frameRecv seq payload, .ctrlSent 170 seq,
          .decodeAttempt seq payload (dec payload)]) := by
  have h80 : ¬(payload.length + 1 = 80) := by omega
  have hrange : 2 ≤ payload.length + 1 ∧ payload.length + 1 ≤ 57 := by omega
  have hstep : rxStep dec .idle (some (payload.length + 1))
      = (.reading (payload.length + 1) [], []) := by
    simp only [rxStep]
    rw [if_neg h80, if_pos hrange]
  have hbody := reading_consume dec (seq :: payload) [] (payload.length + 1)
    seq payload [none] rfl (by simp) (by simp)
  simp only [frameUnit, List.map_cons, List.cons_append]
  rw [rxProc_cons, hstep]
  simp only [List.map_cons, List.cons_append, List.nil_append] at hbody ⊢
  rw [hbody]
  simp [rxProc, rxStep]

/-- A lone garbage byte is discarded without any observable action. -/
theorem garbage_unit_events (dec : List ℕ → Option DecodeResult) (b : ℕ)
    (hb : Garbage b) (T : List (Option ℕ)) :
    rxProc dec .idle ([b].map some ++ none :: T) = rxProc dec .idle T := by
  obtain ⟨h0, h80, h85, h170, h83, hlen⟩ := hb
  simp [rxProc, rxStep, h80, hlen]

/-- An unexpected SYN burst while connected is silently consumed: `S`, `Y`,
`N` are discarded, `\r` (13) is taken for a data LENGTH whose body times out
short, `\n` is swallowed by that aborted read.  No response is emitted and
the loop stays in its connected state. -/
theorem syn_unit_events (dec : List ℕ → Option DecodeResult)
    (T : List (Option ℕ)) :
    rxProc dec .idle (synUnit.map some ++ none :: T) = rxProc dec .idle T := by
  simp [synUnit, rxProc, rxStep]

/-! ## C2 — framing bijection and garbage immunity -/

/-- C2.  First half: for every `(seq, payload)` with `1 ≤ len(payload) ≤ 56`,
feeding the byte sequence the transmitter emits for the data frame (one
LENGTH byte `1 + len(payload)`, the SEQ byte, then the payload,
sender.py:264-268) into the receiver's classifier yields back exactly that
one data frame and nothing else.  Second half: inserting garbage bytes —
bytes outside `{0x00, 0x50, 0x55, 0xAA, 0x53}` and outside the LENGTH range
`[2, 57]` — between the protocol units of any unit stream (each garbage byte
arriving as its own read, as in the spec's per-byte classifier) leaves the
sequence of parsed data frames unchanged. -/
theorem c2_framing_bijection :
    (∀ (dec : List ℕ → Option DecodeResult) (seq : ℕ) (payload : List ℕ),
      1 ≤ payload.length → payload.length ≤ 56 →
      dataFramesOf (rxRun dec (unitStream [frameUnit seq payload]))
        = [(seq, payload)]) ∧
    (∀ (dec : List ℕ → Option DecodeResult) (us vs : List (List ℕ)),
      GarbageIns us vs →
      dataFramesOf (rxRun dec (unitStream vs))
        = dataFramesOf (rxRun dec (unitStream us))) := by
  constructor
  · intro dec seq payload h1 h2
    have hu : unitStream [frameUnit seq payload]
        = (frameUnit seq payload).map some ++ [none] := rfl
    unfold rxRun
    rw [hu, frame_unit_events dec seq payload h1 h2]
    simp [dataFramesOf]
  · intro dec us vs h
    induction h with
    | nil => rfl
    | @keep u us2 vs2 h ih =>
      have e1 := rxProc_unit dec u (unitStream vs2)
      have e2 := rxProc_unit dec u (unitStream us2)
      unfold rxRun at ih ⊢
      rw [unitStream_cons, unitStream_cons, e1, e2]
      simp only [dataFramesOf, List.filterMap_append] at ih ⊢
      rw [ih]
    | @garb b us2 vs2 hb h ih =>
      unfold rxRun at ih ⊢
      rw [unitStream_cons, garbage_unit_events dec b hb]
      exact ih

/-- Witness for C2 at spec §8 scenarios 2 and 6: the 8-byte dummy frame with
SEQ `0x2A`, and the same frame with the garbage byte `0x99` inserted in
front. -/
theorem c2_framing_bijection_witness :
    (1 ≤ payload8.length ∧ payload8.length ≤ 56) ∧
    dataFramesOf (rxRun dec0 (unitStream [frameUnit 42 payload8]))
      = [(42, payload8)] ∧
    GarbageIns [frameUnit 42 payload8] [[153], frameUnit 42 payload8] ∧
    dataFramesOf (rxRun dec0 (unitStream [[153], frameUnit 42 payload8]))
      = dataFramesOf (rxRun dec0 (unitStream [frameUnit 42 payload8])) :=
  ⟨⟨by decide, by decide⟩,
    c2_framing_bijection.1 dec0 42 payload8 (by decide) (by decide),
    GarbageIns.garb 153 (by decide) (GarbageIns.keep _ GarbageIns.nil),
    c2_framing_bijection.2 dec0 _ _
      (GarbageIns.garb 153 (by decide) (GarbageIns.keep _ GarbageIns.nil))⟩

/-! ## C3 — no re-handshake logic exists while connected -/

/-- Counterexample for C3.  The claim says that in the Connected state each
of three consecutive unexpected SYN beacons is answered with a Handshake-ACK
`(0x00, 0x00)` and the third sends the receiver back to AwaitingSyn.  The
connected loop of receiver.py:194-348 classifies bytes only as the control
TYPE `0x50` or a LENGTH in `[2, 57]`: of the SYN bytes, `S`, `Y`, `N` are
discarded, `\r` (13) is misread as a LENGTH whose body times out.  Feeding
three consecutive SYN beacons produces an empty event trace — in particular
no Handshake-ACK is written — and there is no unexpected-SYN counter or
transition back to AwaitingSyn anywhere in the loop. -/
theorem c3_counterexample :
    rxRun dec0 (unitStream [synUnit, synUnit, synUnit]) = [] ∧
    Event.ctrlSent 0 0 ∉ rxRun dec0 (unitStream [synUnit, synUnit, synUnit]) :=
  ⟨by decide, by decide⟩

/-- C3 as amended: on the receiver in the Connected state, unexpected SYN
beacons are ignored — any number of consecutive SYNs produces no response at
all (no Handshake-ACK, no DataAck, no Permit, no decode), and the receiver
stays in its connected loop; `receive_loop` has no
`consecutive_unexpected_syn` counter and never returns to AwaitingSyn. -/
theorem c3_syn_ignored_while_connected
    (dec : List ℕ → Option DecodeResult) (n : ℕ) :
    rxRun dec (unitStream (List.replicate n synUnit)) = [] := by
  induction n with
  | zero => rfl
  | succ m ih =>
    rw [List.replicate_succ, unitStream_cons]
    unfold rxRun at ih ⊢
    rw [syn_unit_events]
    exact ih

/-! ## C7 — DataAck precedes the decoder invocation -/

theorem rxStep_shape (dec : List ℕ → Option DecodeResult) (st : RxState)
    (x : Option ℕ) :
    (rxStep dec st x).2 = [] ∨
    (∃ q, (rxStep dec st x).2 = [Event.ctrlSent 85 q]) ∨
    (∃ s p, (rxStep dec st x).2
      = [Event.frameRecv s p, Event.ctrlSent 170 s,
         Event.decodeAttempt s p (dec p)]) := by
  cases st with
  | idle =>
    cases x with
    | none => exact Or.inl rfl
    | some b =>
      simp only [rxStep]
      split_ifs <;> exact Or.inl rfl
  | awaitCtrlSeq =>
    cases x with
    | none => exact Or.inl rfl
    | some q => exact Or.inr (Or.inl ⟨q, rfl⟩)
  | reading len acc =>
    cases x with
    | none => exact Or.inl rfl
    | some b =>
      simp only [rxStep]
      split_ifs
      · rcases hm : acc ++ [b] with _ | ⟨s, p⟩ <;> exact Or.inl rfl
      · exact Or.inl rfl
  | awaitRssi s p =>
    cases x <;> exact Or.inr (Or.inr ⟨s, p, rfl⟩)

/-- C7.  In the event trace of the receiver loop — started in any state, on
any timed byte stream, with any decoder `dec` (including one for which every
payload is undecodable) — every completely received data frame is immediately
followed by the DataAck write `(0xAA, seq)` (receiver.py:264) and only then
by the invocation of the payload decoder (receiver.py:268): the DataAck is
emitted before, and regardless of the outcome of, decoding. -/
theorem c7_ack_before_decode (dec : List ℕ → Option DecodeResult)
    (stream : List (Option ℕ)) :
    ∀ (st : RxState) (i : ℕ) (s : ℕ) (p : List ℕ),
      ((rxProc dec st stream).2)[i]? = some (Event.frameRecv s p) →
      ((rxProc dec st stream).2)[i + 1]? = some (Event.ctrlSent 170 s) ∧
      ((rxProc dec st stream).2)[i + 2]?
        = some (Event.decodeAttempt s p (dec p)) := by
  induction stream with
  | nil =>
    intro st i s p h
    simp [rxProc] at h
  | cons x rest ih =>
    intro st i s p h
    rw [rxProc_cons] at h ⊢
    rcases rxStep_shape dec st x with h0 | ⟨q, hq⟩ | ⟨s0, p0, hf⟩
    · rw [h0] at h ⊢
      simp only [List.nil_append] at h ⊢
      exact ih _ i s p h
    · rw [hq] at h ⊢
      rcases i with _ | j
      · simp at h
      · simp only [List.cons_append, List.nil_append,
          List.getElem?_cons_succ] at h ⊢
        exact ih _ j s p h
    · rw [hf] at h ⊢
      rcases i with _ | _ | _ | j
      · simp only [List.cons_append, List.getElem?_cons_zero,
          Option.some.injEq, Event.frameRecv.injEq] at h
        obtain ⟨hs, hp⟩ := h
        subst hs
        subst hp
        simp
      · simp at h
      · simp at h
      · simp only [List.cons_append, List.getElem?_cons_succ] at h ⊢
        exact ih _ j s p h

/-- Witness for C7: the single 8-byte frame of spec §8 scenario 6 processed
with the always-undecodable decoder; the frame event sits at index 0, the
DataAck at index 1, the decode attempt at index 2. -/
theorem c7_ack_before_decode_witness :
    ((rxProc dec0 .idle (unitStream [frameUnit 42 payload8])).2)[0]?
      = some (Event.frameRecv 42 payload8) ∧
    ((rxProc dec0 .idle (unitStream [frameUnit 42 payload8])).2)[1]?
      = some (Event.ctrlSent 170 42) ∧
    ((rxProc dec0 .idle (unitStream [frameUnit 42 payload8])).2)[2]?
      = some (Event.decodeAttempt 42 payload8 (dec0 payload8)) :=
  ⟨by decide,
    (c7_ack_before_decode dec0 (unitStream [frameUnit 42 payload8]) .idle 0 42
      payload8 (by decide)).1,
    (c7_ack_before_decode dec0 (unitStream [frameUnit 42 payload8]) .idle 0 42
      payload8 (by decide)).2⟩
